import Mathlib

/-!
# Verification of the `@adobe/aio-lib-state` client protocol logic

This file gives a shallow embedding of the current `AdobeState` client
(`src/unnamed/part_015`, third concatenated file, the 2024 revision that the
repository's `test/AdobeState.test.js` exercises) together with the parts of
`lib/StateError.js` and `lib/utils.js` (`formatAjvErrors`) that the public
operations rely on, and proves/refutes the frozen claims about it.

Modelling conventions:
* JavaScript values that flow into the AJV-validated entry points are the
  inductive `JsValue` (undefined, null, booleans, numbers as `Rat`, strings).
* The injected retrying HTTP executor (`HttpExponentialBackoff`) is a function
  from the built `Request` to a `TransportOutcome`: either a rejection carrying
  the raw error message, or an `HttpResponse`.
* Each public operation is a pure function returning the operation outcome
  (`Except OpError …`, where `OpError.rawTransport` models the raw executor
  rejection that `logAndThrow` rethrows unchanged) *and* the list of requests
  handed to the executor, so that "no network call happens" is the statement
  that this list is empty.
* `sdkDetails`, debug logging, header redaction and the ISO-8601 rendering of
  the `x-key-expires-ms` header are not modelled: no claim depends on them;
  the raw header value is carried through instead of its ISO rendering.
* The final `lib/constants.js` of this revision is absent from `src/` (only
  older revisions of `constants.js` are present); the constants it must
  provide are modelled from the spec and cross-checked against the literal
  strings the unit tests pin (see the individual doc comments).
-/

namespace AioLibState

/-- A JavaScript value, as far as the validated entry points can observe it.
Numbers are rationals (enough to model the AJV `integer` check separating
`1.1` from `1`). -/
inductive JsValue where
  | undef
  | null
  | boolean (b : Bool)
  | num (q : Rat)
  | str (s : String)
  deriving DecidableEq, Repr

/-- JavaScript truthiness, used by `list` when copying options into
`queryParams` (`if (options.match) …`, `if (options.countHint) …`). -/
def jsTruthy : JsValue → Bool
  | .undef => false
  | .null => false
  | .boolean b => b
  | .num q => q ≠ 0
  | .str s => s ≠ ""

/-- JavaScript number rendering restricted to the integral values the client
ever stringifies (ttl and countHint survive AJV's `integer` check, cursors come
from JSON numbers); non-integral rationals never reach a template literal in
any claim, so they keep the default `Rat` rendering. -/
def jsNumToString (q : Rat) : String :=
  if q.den = 1 then toString q.num else toString q

/-- String coercion of a template literal `${v}` (JavaScript `String(v)`). -/
def jsToString : JsValue → String
  | .undef => "undefined"
  | .null => "null"
  | .boolean b => if b then "true" else "false"
  | .num q => jsNumToString q
  | .str s => s

/-- Numeric coercion used by the relational operators in
`queryParams.countHint < MIN_LIST_COUNT_HINT`; `none` stands for NaN, and any
comparison against NaN is false.  String-to-number coercion is modelled as NaN:
the only strings reaching the comparison are non-numeric (the numeric-string
case is unreachable in the claims and in the test-suite). -/
def jsNumberOf : JsValue → Option Rat
  | .undef => none
  | .null => some 0
  | .boolean b => some (if b then 1 else 0)
  | .num q => some q
  | .str _ => none

/-- `v < n` under JavaScript coercion (false when the coercion yields NaN). -/
def jsLtInt (v : JsValue) (n : Int) : Bool :=
  match jsNumberOf v with
  | none => false
  | some q => q < (n : Rat)

/-- `v > n` under JavaScript coercion (false when the coercion yields NaN). -/
def jsGtInt (v : JsValue) (n : Int) : Bool :=
  match jsNumberOf v with
  | none => false
  | some q => (n : Rat) < q

/-! ## Constants

`MAX_TTL_SECONDS` appears verbatim in the `constants.js` revisions under
`src/lib`; the remaining bounds and patterns belong to the final
`constants.js`, which is missing from `src/`. -/

/-- `MAX_KEY_SIZE = 1024 * 1` (src/lib/constants.js). -/
def MAX_KEY_SIZE : Nat := 1024 * 1

/-- `MAX_TTL_SECONDS = 60 * 60 * 24 * 365` (src/lib/constants.js). -/
def MAX_TTL_SECONDS : Int := 60 * 60 * 24 * 365

/-- Modelled from the spec: `MIN_LIST_COUNT_HINT` of the final `constants.js`
(absent from src/); "CountHint: integer in [MIN_LIST_COUNT_HINT,
MAX_LIST_COUNT_HINT] (100–1000 inclusive)", matching the test-pinned message
"'countHint' must be in the [100, 1000] range". -/
def MIN_LIST_COUNT_HINT : Int := 100

/-- Modelled from the spec: `MAX_LIST_COUNT_HINT` of the final `constants.js`
(absent from src/), see `MIN_LIST_COUNT_HINT`. -/
def MAX_LIST_COUNT_HINT : Int := 1000

/-- Character class of `REGEX_PATTERN_STORE_KEY`:
`[a-zA-Z0-9-_.]` (letters, digits, hyphen, underscore, dot). -/
def isStoreKeyChar (c : Char) : Bool :=
  (Char.ofNat 97 ≤ c && c ≤ Char.ofNat 122) ||   -- a-z
  (Char.ofNat 65 ≤ c && c ≤ Char.ofNat 90) ||    -- A-Z
  (Char.ofNat 48 ≤ c && c ≤ Char.ofNat 57) ||    -- 0-9
  c = Char.ofNat 45 ||                           -- hyphen
  c = Char.ofNat 95 ||                           -- underscore
  c = Char.ofNat 46                              -- dot

/-- Modelled from the spec: matching against `REGEX_PATTERN_STORE_KEY` of the
final `constants.js` (absent from src/): "Key: non-empty string of length
1-1024 restricted to [A-Za-z0-9\-_.]", i.e. the anchored regular expression
`^[a-zA-Z0-9-_.]{1,1024}$` pinned literally by the unit tests. -/
def matchesStoreKey (s : String) : Bool :=
  1 ≤ s.length && s.length ≤ MAX_KEY_SIZE && s.data.all isStoreKeyChar

/-- Character class of `REGEX_PATTERN_MATCH_KEY`: the store-key class plus the
glob wildcard. -/
def isMatchKeyChar (c : Char) : Bool :=
  isStoreKeyChar c || c = Char.ofNat 42          -- asterisk wildcard

/-- Modelled from the spec: matching against `REGEX_PATTERN_MATCH_KEY` of the
final `constants.js` (absent from src/): "Match pattern: same character class
as key plus `*` (glob wildcard), 1-1024 chars". -/
def matchesMatchKey (s : String) : Bool :=
  1 ≤ s.length && s.length ≤ MAX_KEY_SIZE && s.data.all isMatchKeyChar

/-! ## Errors (`lib/StateError.js`)

An error of the taxonomy carries its formatted message; `OpError` additionally
has the raw executor rejection that `_wrap`'s catch block rethrows via
`logAndThrow(e)`. -/

/-- The thrown members of the `AdobeStateLib` error taxonomy, each carrying its
formatted message. -/
inductive StateLibError where
  | ERROR_BAD_ARGUMENT (message : String)
  | ERROR_UNAUTHORIZED (message : String)
  | ERROR_BAD_CREDENTIALS (message : String)
  | ERROR_PAYLOAD_TOO_LARGE (message : String)
  | ERROR_REQUEST_RATE_TOO_HIGH (message : String)
  | ERROR_INTERNAL (message : String)
  deriving DecidableEq, Repr

/-- What a public operation can throw: a taxonomy error, or the raw
(unwrapped) transport rejection rethrown by `logAndThrow` in `_wrap`. -/
inductive OpError where
  | lib (e : StateLibError)
  | rawTransport (message : String)
  deriving DecidableEq, Repr

/-- Is this error an `ERROR_INTERNAL` of the taxonomy? -/
def OpError.isInternal : OpError → Bool
  | .lib (.ERROR_INTERNAL _) => true
  | _ => false

/-- Is this error an `ERROR_BAD_ARGUMENT` of the taxonomy? -/
def OpError.isBadArgument : OpError → Bool
  | .lib (.ERROR_BAD_ARGUMENT _) => true
  | _ => false

/-! ## AJV validation (`validate` + `utils.formatAjvErrors`)

`validate` compiles the operation's schema with `allErrors: true` and
`formatAjvErrors` renders each AJV error as `"{instancePath} {message}"`
(type and pattern keywords) or collects missing `required` properties.
A property whose value is `undefined` is treated by AJV as absent, so it is
checked neither for type nor for pattern.  The functions below fuse the two
steps and return the list of formatted error strings; validity is emptiness. -/

/-- Formatted AJV errors for a property `{type: 'string', pattern}` at
`instancePath`, for example `key` in `get`/`put`/`delete`. -/
def ajvStringPattern (instancePath : String) (pattern : String)
    (accepts : String → Bool) : JsValue → List String
  | .undef => []
  | .str s =>
      if accepts s then []
      else [instancePath ++ " must match pattern \"" ++ pattern ++ "\""]
  | _ => [instancePath ++ " must be string"]

/-- Formatted AJV errors for a property `{type: 'string'}` at `instancePath`
(the `value` of `put`). -/
def ajvString (instancePath : String) : JsValue → List String
  | .undef => []
  | .str _ => []
  | _ => [instancePath ++ " must be string"]

/-- Formatted AJV errors for a property `{type: 'integer'}` at `instancePath`
(the `ttl` of `put`, the `countHint` of `list`). -/
def ajvInteger (instancePath : String) : JsValue → List String
  | .undef => []
  | .num q => if q.den = 1 then [] else [instancePath ++ " must be integer"]
  | _ => [instancePath ++ " must be integer"]

/-- The source regex of the store-key pattern, as it appears in AJV error
messages. -/
def REGEX_PATTERN_STORE_KEY : String := "^[a-zA-Z0-9-_.]\x7b1," ++ toString MAX_KEY_SIZE ++ "\x7d$"

/-- The source regex of the list/deleteAll match pattern as it appears in AJV
error messages (store-key class plus the wildcard). -/
def REGEX_PATTERN_MATCH_KEY : String := "^[a-zA-Z0-9-_.*]\x7b1," ++ toString MAX_KEY_SIZE ++ "\x7d$"

/-- The error messages of a `{key: {type: 'string', pattern:
REGEX_PATTERN_STORE_KEY}}` schema applied to `{ key }`, shared by `get`,
`put` and `delete`. -/
def validateKeySchema (key : JsValue) : List String :=
  ajvStringPattern "/key" REGEX_PATTERN_STORE_KEY matchesStoreKey key

/-- Message assembly of the `ErrorWrapper` for an error built from a list of
formatted AJV messages; every claim-relevant invocation produces exactly one
message, which is passed through unchanged. -/
def joinMessages (messages : List String) : String :=
  String.intercalate ", " messages

/-! ## HTTP layer -/

/-- A JSON value (response bodies parsed by `response.json()`). -/
inductive Json where
  | null
  | num (n : Int)
  | str (s : String)
  | arr (elems : List Json)
  | obj (fields : List (String × Json))

/-- Field lookup in a JSON object (`undefined`/`none` when absent). -/
def Json.lookup (j : Json) (field : String) : Option Json :=
  match j with
  | .obj fields => fields.lookup field
  | _ => none

/-- `(res).keys` read as a string array; defaults to `[]` off the well-formed
pages that the claims quantify over. -/
def Json.keysField (j : Json) : List String :=
  match j.lookup "keys" with
  | some (.arr elems) => elems.filterMap fun e =>
      match e with
      | .str s => some s
      | _ => none
  | _ => []

/-- `(res).cursor` read as an integer; defaults to `0` off the well-formed
pages that the claims quantify over. -/
def Json.cursorField (j : Json) : Int :=
  match j.lookup "cursor" with
  | some (.num n) => n
  | _ => 0

/-- An integer field of a JSON object (the `deleteAll` count and the `stats`
counters); defaults to `0` off the well-formed bodies that the claims
quantify over. -/
def Json.intField (j : Json) (field : String) : Int :=
  match j.lookup field with
  | some (.num n) => n
  | _ => 0

/-- A fetch `Response`, reduced to the pieces the client reads: the status,
the body (as text and as parsed JSON) and the `x-key-expires-ms` header. -/
structure HttpResponse where
  status : Nat
  text : String
  json : Json
  expiresHeader : Option String

/-- `response.ok` of fetch: the status is in the 2xx success range. -/
def HttpResponse.ok (response : HttpResponse) : Bool :=
  200 ≤ response.status && response.status ≤ 299

/-- What the injected executor yields for one request: a transport-level
rejection (carrying the raw error message) or an HTTP response. -/
def TransportOutcome := Except String HttpResponse

/-- A request handed to the executor. Auth and content-type headers are fixed
per operation and carry no claim-relevant information, so only the method, the
URL and the body are kept. -/
structure Request where
  method : String
  url : String
  body : Option String
  deriving DecidableEq, Repr

/-- `handleResponse` of `src/unnamed/part_015`: 2xx and 404 pass the response
through, every other status throws the classified taxonomy error. The
JavaScript `switch` is written as the equivalent cascade of equality tests. -/
def handleResponse (response : HttpResponse) : Except OpError HttpResponse :=
  if response.ok then .ok response
  else if response.status = 404 then .ok response
  else if response.status = 401 then
    .error (.lib (.ERROR_UNAUTHORIZED "you are not authorized to access State service"))
  else if response.status = 403 then
    .error (.lib (.ERROR_BAD_CREDENTIALS "cannot access State service, make sure your credentials are valid"))
  else if response.status = 413 then
    .error (.lib (.ERROR_PAYLOAD_TOO_LARGE "key, value or request payload is too large State service"))
  else if response.status = 429 then
    .error (.lib (.ERROR_REQUEST_RATE_TOO_HIGH "Request rate too high. Please retry after sometime."))
  else
    .error (.lib (.ERROR_INTERNAL
      ("unexpected response from State service with status: " ++ toString response.status
        ++ " body: " ++ response.text)))

/-- `_wrap` of `src/unnamed/part_015`: a rejected executor promise is logged
and rethrown as-is (`logAndThrow(e)` throws its argument unchanged), a
resolved one goes through `handleResponse`. -/
def wrapCall (outcome : TransportOutcome) : Except OpError HttpResponse :=
  match outcome with
  | .error e => .error (.rawTransport e)
  | .ok response => handleResponse response

/-! ## The client instance and URL construction -/

/-- The per-instance resolved configuration of `AdobeState` (the constructor
fields the request path depends on). `nsName` is the `namespace` field (a Lean
keyword). The api key / Basic auth header is not modelled (headers are fixed
per operation and no claim reads them). -/
structure AdobeState where
  endpoint : String
  nsName : String
  deriving DecidableEq, Repr

/-- Serialization of `requestUrl.search = new URLSearchParams(queryObject)`:
an empty query object leaves the URL untouched, otherwise `?k1=v1&k2=v2…` in
insertion order. Percent-encoding is not modelled: every claim-relevant value
(keys, integral ttl/countHint/cursor values, glob patterns) is left unchanged
by it. -/
def querySuffix (queryObject : List (String × String)) : String :=
  match queryObject with
  | [] => ""
  | _ => "?" ++ String.intercalate "&" (queryObject.map fun p => p.1 ++ "=" ++ p.2)

/-- `createRequestUrl` of `src/unnamed/part_015`:
`` `${this.endpoint}/containers/${this.namespace}${containerURLPath}` `` plus
the query string. -/
def createRequestUrl (st : AdobeState) (containerURLPath : String := "")
    (queryObject : List (String × String) := []) : String :=
  st.endpoint ++ "/containers/" ++ st.nsName ++ containerURLPath
    ++ querySuffix queryObject

/-! ## Public operations

Each operation takes the executor as a function (or, for `list`, the queue of
outcomes its successive requests produce) and returns its outcome together
with the requests handed to the executor. -/

/-- The executor: what the transport yields for a given request. -/
def Transport := Request → TransportOutcome

/-- The `get` return object; `expiration` is the raw `x-key-expires-ms` header
(its ISO-8601 rendering is not modelled). -/
structure AdobeStateGetReturnValue where
  value : String
  expiresHeader : Option String
  deriving DecidableEq, Repr

/-- `AdobeState.get`: validate the key against the store-key schema, issue a
GET to `/data/{key}`, and return the body+expiration on 2xx, `undefined`
(`none`) otherwise (the 404 that `_wrap` passed through). -/
def AdobeState.get (st : AdobeState) (key : JsValue) (transport : Transport) :
    Except OpError (Option AdobeStateGetReturnValue) × List Request :=
  let errors := validateKeySchema key
  if errors ≠ [] then
    (.error (.lib (.ERROR_BAD_ARGUMENT (joinMessages errors))), [])
  else
    let req : Request :=
      { method := "GET"
        url := createRequestUrl st ("/data/" ++ jsToString key)
        body := none }
    let outcome :=
      match wrapCall (transport req) with
      | .error e => .error e
      | .ok response =>
          if response.ok then
            .ok (some { value := response.text, expiresHeader := response.expiresHeader })
          else
            .ok none
    (outcome, [req])

/-- The options object of `put`; an absent `ttl` is `JsValue.undef`. -/
structure AdobeStatePutOptions where
  ttl : JsValue := .undef
  deriving DecidableEq, Repr

/-- The TTL-bound message of `put` (`src/unnamed/part_015` line 543). -/
def ttlBoundMessage : String :=
  "ttl must be <= 365 days (31536000s). Infinite TTLs (< 0) are not supported."

/-- `AdobeState.put`: validate `{key, value, ttl}` against the schema, then the
explicit TTL bound (`ttl !== undefined && (ttl < 0 || ttl > MAX_TTL_SECONDS)`),
then issue a PUT to `/data/{key}` whose query carries `ttl` exactly when the
option was defined, and return the key. -/
def AdobeState.put (st : AdobeState) (key value : JsValue)
    (options : AdobeStatePutOptions) (transport : Transport) :
    Except OpError JsValue × List Request :=
  let ttl := options.ttl
  let errors := validateKeySchema key ++ ajvString "/value" value ++ ajvInteger "/ttl" ttl
  if errors ≠ [] then
    (.error (.lib (.ERROR_BAD_ARGUMENT (joinMessages errors))), [])
  else if ttl ≠ .undef ∧ (jsLtInt ttl 0 ∨ jsGtInt ttl MAX_TTL_SECONDS) then
    (.error (.lib (.ERROR_BAD_ARGUMENT ttlBoundMessage)), [])
  else
    let queryParams := if ttl ≠ .undef then [("ttl", jsToString ttl)] else []
    let req : Request :=
      { method := "PUT"
        url := createRequestUrl st ("/data/" ++ jsToString key) queryParams
        body := some (jsToString value) }
    let outcome :=
      match wrapCall (transport req) with
      | .error e => .error e
      | .ok _ => .ok key
    (outcome, [req])

/-- `AdobeState.delete`: validate the key (same schema as `get`), issue a
DELETE to `/data/{key}`; a 404 yields `null` (`none`), anything else that
`_wrap` passes through yields the key. -/
def AdobeState.delete (st : AdobeState) (key : JsValue) (transport : Transport) :
    Except OpError (Option JsValue) × List Request :=
  let errors := validateKeySchema key
  if errors ≠ [] then
    (.error (.lib (.ERROR_BAD_ARGUMENT (joinMessages errors))), [])
  else
    let req : Request :=
      { method := "DELETE"
        url := createRequestUrl st ("/data/" ++ jsToString key)
        body := none }
    let outcome :=
      match wrapCall (transport req) with
      | .error e => .error e
      | .ok response =>
          if response.status = 404 then .ok none
          else .ok (some key)
    (outcome, [req])

/-- The options object of `deleteAll`; `matchPattern` is the required `match`
option (a Lean keyword), `JsValue.undef` when absent. -/
structure AdobeStateDeleteAllOptions where
  matchPattern : JsValue := .undef
  deriving DecidableEq, Repr

/-- The result object of `deleteAll`: the number of deleted keys. -/
structure DeleteAllResult where
  keys : Int
  deriving DecidableEq, Repr

/-- AJV errors of the `deleteAll` options schema: `match` is of type string
with the match-key pattern and is `required`. -/
def validateDeleteAllSchema (matchPattern : JsValue) : List String :=
  (if matchPattern = .undef then ["must have required properties: match"] else [])
    ++ ajvStringPattern "/match" REGEX_PATTERN_MATCH_KEY matchesMatchKey matchPattern

/-- `AdobeState.deleteAll`: validate the required `match` option, issue a
DELETE on the container with the `matchData` query parameter; a 404 yields
`{keys: 0}`, a 2xx yields the count from the JSON body. -/
def AdobeState.deleteAll (st : AdobeState) (options : AdobeStateDeleteAllOptions)
    (transport : Transport) : Except OpError DeleteAllResult × List Request :=
  let errors := validateDeleteAllSchema options.matchPattern
  if errors ≠ [] then
    (.error (.lib (.ERROR_BAD_ARGUMENT (joinMessages errors))), [])
  else
    let req : Request :=
      { method := "DELETE"
        url := createRequestUrl st "" [("matchData", jsToString options.matchPattern)]
        body := none }
    let outcome :=
      match wrapCall (transport req) with
      | .error e => .error e
      | .ok response =>
          if response.status = 404 then .ok { keys := 0 }
          else .ok { keys := response.json.intField "keys" }
    (outcome, [req])

/-- `AdobeState.any`: issue a HEAD on the container; the result is
`response.status !== 404`. -/
def AdobeState.any (st : AdobeState) (transport : Transport) :
    Except OpError Bool × List Request :=
  let req : Request := { method := "HEAD", url := createRequestUrl st, body := none }
  let outcome :=
    match wrapCall (transport req) with
    | .error e => .error e
    | .ok response => .ok (decide (response.status ≠ 404))
  (outcome, [req])

/-- The container statistics returned by `stats`. -/
structure StatsResult where
  keys : Int
  bytesKeys : Int
  bytesValues : Int
  deriving DecidableEq, Repr

/-- `AdobeState.stats`: issue a GET on the container; a 404 yields the
all-zeros statistics object, a 2xx the counts from the JSON body. -/
def AdobeState.stats (st : AdobeState) (transport : Transport) :
    Except OpError StatsResult × List Request :=
  let req : Request := { method := "GET", url := createRequestUrl st, body := none }
  let outcome :=
    match wrapCall (transport req) with
    | .error e => .error e
    | .ok response =>
        if response.status = 404 then
          .ok { keys := 0, bytesKeys := 0, bytesValues := 0 }
        else
          .ok { keys := response.json.intField "keys"
                bytesKeys := response.json.intField "bytesKeys"
                bytesValues := response.json.intField "bytesValues" }
  (outcome, [req])

/-! ## `list` -/

/-- The options object of `list`; absent options are `JsValue.undef`.
`matchPattern` is the `match` option (a Lean keyword). -/
structure AdobeStateListOptions where
  matchPattern : JsValue := .undef
  countHint : JsValue := .undef
  deriving DecidableEq, Repr

/-- The countHint range message of `list` (`src/unnamed/part_015` line 749). -/
def countHintRangeMessage : String :=
  "\x27countHint\x27 must be in the [100, 1000] range"

/-- How one run of the `list` async generator ended: the cursor reached `0` or
the server answered 404 (`finished`), an iteration threw (`failed`), or the
modelled queue of transport outcomes ran dry before the cursor reached `0`
(`starved` — impossible for a server that answers every request, and excluded
by every claim). -/
inductive ListTerminal where
  | finished
  | failed (e : OpError)
  | starved
  deriving DecidableEq, Repr

/-- The request one `list` iteration issues: GET on `/data` with the validated
query parameters plus the current cursor (object-spread order: `match`,
`countHint`, then `cursor`). -/
def listRequest (st : AdobeState) (queryParams : List (String × String))
    (cursor : Int) : Request :=
  { method := "GET"
    url := createRequestUrl st "/data" (queryParams ++ [("cursor", toString cursor)])
    body := none }

/-- The body of the `iter` async generator of `list`: fetch with the current
cursor, pass the outcome through `_wrap`; on 404 yield `{keys: []}` and stop;
otherwise yield the page's keys, move the cursor to the page's cursor and
continue while it is not `0`.  Returns the issued requests, the yielded key
batches in order, and how the run ended. -/
def listLoop (st : AdobeState) (queryParams : List (String × String)) :
    List TransportOutcome → Int → List Request × List (List String) × ListTerminal
  | [], _ => ([], [], .starved)
  | outcome :: rest, cursor =>
    let req := listRequest st queryParams cursor
    match wrapCall outcome with
    | .error e => ([req], [], .failed e)
    | .ok response =>
        if response.status = 404 then ([req], [[]], .finished)
        else
          let pageKeys := response.json.keysField
          let nextCursor := response.json.cursorField
          if nextCursor = 0 then ([req], [pageKeys], .finished)
          else
            let (reqs, yields, terminal) := listLoop st queryParams rest nextCursor
            (req :: reqs, pageKeys :: yields, terminal)

/-- `AdobeState.list`: copy the truthy `match`/`countHint` options into the
query object, check the countHint range (`queryParams.countHint <
MIN_LIST_COUNT_HINT || queryParams.countHint > MAX_LIST_COUNT_HINT` under
JavaScript coercion, so an uncopied hint compares as NaN and passes), validate
the query object against the schema, then run the generator from cursor `0`
against the queue of transport outcomes. Validation failures are synchronous
throws: no request is issued. -/
def AdobeState.list (st : AdobeState) (options : AdobeStateListOptions)
    (outcomes : List TransportOutcome) :
    Except OpError (List Request × List (List String) × ListTerminal) :=
  let qpMatch := if jsTruthy options.matchPattern then options.matchPattern else .undef
  let qpCountHint := if jsTruthy options.countHint then options.countHint else .undef
  if jsLtInt qpCountHint MIN_LIST_COUNT_HINT ∨ jsGtInt qpCountHint MAX_LIST_COUNT_HINT then
    .error (.lib (.ERROR_BAD_ARGUMENT countHintRangeMessage))
  else
    let errors := ajvStringPattern "/match" REGEX_PATTERN_MATCH_KEY matchesMatchKey qpMatch
      ++ ajvInteger "/countHint" qpCountHint
    if errors ≠ [] then
      .error (.lib (.ERROR_BAD_ARGUMENT (joinMessages errors)))
    else
      let queryParams :=
        (if jsTruthy options.matchPattern then [("match", jsToString options.matchPattern)] else [])
          ++ (if jsTruthy options.countHint then [("countHint", jsToString options.countHint)] else [])
      .ok (listLoop st queryParams outcomes 0)

/-! ## Fixtures and helper lemmas -/

/-- A concrete client instance for witnesses and counterexamples. -/
def sampleState : AdobeState := { endpoint := "https://host", nsName := "ns" }

/-- A concrete 404 response. -/
def response404 : HttpResponse :=
  { status := 404, text := "", json := .null, expiresHeader := none }

/-- A concrete 2xx response with a text body and an expiry header. -/
def response200 : HttpResponse :=
  { status := 200, text := "some-value", json := .obj [], expiresHeader := some "1707445350000" }

/-- A well-formed 200 response of the `list` protocol: a JSON body with a
`keys` string array and a `cursor` number. -/
def pageResponse (keys : List String) (cursor : Int) : HttpResponse :=
  { status := 200
    text := ""
    json := .obj [("keys", .arr (keys.map .str)), ("cursor", .num cursor)]
    expiresHeader := none }

/-- An executor that answers every request with the given response. -/
def serveOnly (response : HttpResponse) : Transport := fun _ => .ok response

/-- Is the outcome a success (nothing was thrown)? -/
def isOkOutcome {ε α : Type _} : Except ε α → Bool
  | .ok _ => true
  | .error _ => false

lemma ok_of_status404 {r : HttpResponse} (h : r.status = 404) : r.ok = false := by
  simp [HttpResponse.ok, h]

lemma handleResponse_404 {r : HttpResponse} (h : r.status = 404) :
    handleResponse r = .ok r := by
  simp [handleResponse, ok_of_status404 h, h]

lemma pageResponse_ok (keys : List String) (cursor : Int) :
    (pageResponse keys cursor).ok = true := by
  simp [pageResponse, HttpResponse.ok]

lemma handleResponse_pageResponse (keys : List String) (cursor : Int) :
    handleResponse (pageResponse keys cursor) = .ok (pageResponse keys cursor) := by
  simp [handleResponse, pageResponse_ok]

lemma keysField_pageResponse (keys : List String) (cursor : Int) :
    (pageResponse keys cursor).json.keysField = keys := by
  simp only [pageResponse, Json.keysField, Json.lookup, List.lookup]
  induction keys with
  | nil => rfl
  | cons k ks ih =>
      simpa [List.filterMap_cons] using ih

lemma cursorField_pageResponse (keys : List String) (cursor : Int) :
    (pageResponse keys cursor).json.cursorField = cursor := rfl

lemma validateKeySchema_sample : validateKeySchema (.str "k") = [] := rfl

/-- A concrete 500 response with a body, for witnesses. -/
def response500 : HttpResponse :=
  { status := 500, text := "error: this is the response body", json := .null
    expiresHeader := none }

/-! ## Claim C1 -/

/-- C1: for every operation, a 404 response from the executor is not an error:
`get` resolves to `undefined`, `delete` to `null`, `any` to `false`, `stats`
to the zero-count stats object, `deleteAll({match})` to a zero-key count, and
the `list` iterator yields a single `{keys: []}` page and terminates. -/
theorem claim_C1_http404_is_absent (st : AdobeState) (r : HttpResponse)
    (rest : List TransportOutcome) (h : r.status = 404) :
    (AdobeState.get st (.str "k") (fun _ => .ok r)).1 = .ok none ∧
    (AdobeState.delete st (.str "k") (fun _ => .ok r)).1 = .ok none ∧
    (AdobeState.any st (fun _ => .ok r)).1 = .ok false ∧
    (AdobeState.stats st (fun _ => .ok r)).1 =
      .ok { keys := 0, bytesKeys := 0, bytesValues := 0 } ∧
    (AdobeState.deleteAll st { matchPattern := .str "a*" } (fun _ => .ok r)).1 =
      .ok { keys := 0 } ∧
    AdobeState.list st {} (.ok r :: rest) =
      .ok ([listRequest st [] 0], [[]], .finished) := by
  have hok := ok_of_status404 h
  have hw : wrapCall (.ok r) = .ok r := by simp [wrapCall, handleResponse_404 h]
  refine ⟨?_, ?_, ?_, ?_, ?_, ?_⟩
  · simp [AdobeState.get, hw, hok, validateKeySchema_sample]
  · simp [AdobeState.delete, hw, h, validateKeySchema_sample]
  · simp [AdobeState.any, hw, h]
  · simp [AdobeState.stats, hw, h]
  · have hv : validateDeleteAllSchema (.str "a*") = [] := rfl
    simp [AdobeState.deleteAll, hw, h, hv]
  · simp [AdobeState.list, listLoop, hw, h, jsTruthy, jsLtInt, jsGtInt, jsNumberOf,
      ajvStringPattern, ajvInteger]

/-- Witness for C1 at the concrete 404 response. -/
theorem claim_C1_http404_is_absent_witness :
    (AdobeState.get sampleState (.str "k") (fun _ => .ok response404)).1 = .ok none ∧
    (AdobeState.delete sampleState (.str "k") (fun _ => .ok response404)).1 = .ok none ∧
    (AdobeState.any sampleState (fun _ => .ok response404)).1 = .ok false ∧
    (AdobeState.stats sampleState (fun _ => .ok response404)).1 =
      .ok { keys := 0, bytesKeys := 0, bytesValues := 0 } ∧
    (AdobeState.deleteAll sampleState { matchPattern := .str "a*" }
      (fun _ => .ok response404)).1 = .ok { keys := 0 } ∧
    AdobeState.list sampleState {} [.ok response404] =
      .ok ([listRequest sampleState [] 0], [[]], .finished) :=
  claim_C1_http404_is_absent sampleState response404 [] rfl

/-! ## Claim C2 -/

/-- C2: for every operation and every non-2xx, non-404 response, the
classifier throws exactly the taxonomy error determined by the status code
(401 unauthorized, 403 bad credentials, 413 payload too large, 429 request
rate too high, anything else internal with the status and body embedded in the
message), and each operation surfaces exactly that error. -/
theorem claim_C2_error_taxonomy (st : AdobeState) (r : HttpResponse)
    (rest : List TransportOutcome) (E : OpError)
    (hok : r.ok = false) (h404 : r.status ≠ 404)
    (hE : E = .lib (
      if r.status = 401 then
        .ERROR_UNAUTHORIZED "you are not authorized to access State service"
      else if r.status = 403 then
        .ERROR_BAD_CREDENTIALS "cannot access State service, make sure your credentials are valid"
      else if r.status = 413 then
        .ERROR_PAYLOAD_TOO_LARGE "key, value or request payload is too large State service"
      else if r.status = 429 then
        .ERROR_REQUEST_RATE_TOO_HIGH "Request rate too high. Please retry after sometime."
      else
        .ERROR_INTERNAL ("unexpected response from State service with status: "
          ++ toString r.status ++ " body: " ++ r.text))) :
    handleResponse r = .error E ∧
    (AdobeState.get st (.str "k") (fun _ => .ok r)).1 = .error E ∧
    (AdobeState.put st (.str "k") (.str "v") {} (fun _ => .ok r)).1 = .error E ∧
    (AdobeState.delete st (.str "k") (fun _ => .ok r)).1 = .error E ∧
    (AdobeState.deleteAll st { matchPattern := .str "a*" } (fun _ => .ok r)).1 = .error E ∧
    (AdobeState.any st (fun _ => .ok r)).1 = .error E ∧
    (AdobeState.stats st (fun _ => .ok r)).1 = .error E ∧
    AdobeState.list st {} (.ok r :: rest) =
      .ok ([listRequest st [] 0], [], .failed E) := by
  have hhr : handleResponse r = .error E := by
    subst hE
    simp only [handleResponse, hok, Bool.false_eq_true, if_false, h404]
    split_ifs <;> simp_all
  have hw : wrapCall (.ok r) = .error E := by simp [wrapCall, hhr]
  have hv : validateDeleteAllSchema (.str "a*") = [] := rfl
  refine ⟨hhr, ?_, ?_, ?_, ?_, ?_, ?_, ?_⟩
  · simp [AdobeState.get, hw, validateKeySchema_sample]
  · simp [AdobeState.put, hw, validateKeySchema_sample, ajvString, ajvInteger]
  · simp [AdobeState.delete, hw, validateKeySchema_sample]
  · simp [AdobeState.deleteAll, hw, hv]
  · simp [AdobeState.any, hw]
  · simp [AdobeState.stats, hw]
  · simp [AdobeState.list, listLoop, hw, jsTruthy, jsLtInt, jsGtInt, jsNumberOf,
      ajvStringPattern, ajvInteger]

/-- Witness for C2 at a concrete 500 response with a body. -/
theorem claim_C2_error_taxonomy_witness :
    handleResponse response500 = .error (.lib (.ERROR_INTERNAL
      "unexpected response from State service with status: 500 body: error: this is the response body")) ∧
    (AdobeState.get sampleState (.str "k") (fun _ => .ok response500)).1 =
      .error (.lib (.ERROR_INTERNAL
        "unexpected response from State service with status: 500 body: error: this is the response body")) := by
  have h := claim_C2_error_taxonomy sampleState response500 []
    (.lib (.ERROR_INTERNAL
      "unexpected response from State service with status: 500 body: error: this is the response body"))
    rfl (by decide) rfl
  exact ⟨h.1, h.2.1⟩

/-! ## Claim C3 -/

/-- One page as served by the server in request order. -/
structure ServerPage where
  keys : List String
  cursor : Int
  deriving DecidableEq, Repr

/-- The cursors the client sends: the starting cursor, then each page's cursor
feeds the next request. -/
def sentCursors (cursor : Int) : List ServerPage → List Int
  | [] => []
  | p :: ps => cursor :: sentCursors p.cursor ps

lemma status_pageResponse (keys : List String) (cursor : Int) :
    (pageResponse keys cursor).status = 200 := rfl

lemma listLoop_pages (st : AdobeState) (qp : List (String × String)) :
    ∀ (front : List ServerPage) (lastPage : ServerPage) (c : Int),
      (∀ p ∈ front, p.cursor ≠ 0) → lastPage.cursor = 0 →
      listLoop st qp ((front ++ [lastPage]).map fun p => .ok (pageResponse p.keys p.cursor)) c =
        ((sentCursors c (front ++ [lastPage])).map (listRequest st qp),
         (front ++ [lastPage]).map ServerPage.keys, .finished)
  | [], lastPage, c, _, hlast => by
      simp only [List.nil_append, List.map_cons, List.map_nil, listLoop, wrapCall,
        handleResponse_pageResponse, keysField_pageResponse, cursorField_pageResponse,
        status_pageResponse, sentCursors, hlast]
      simp
  | p :: front, lastPage, c, hfront, hlast => by
      have hp : p.cursor ≠ 0 := hfront p (by simp)
      have ih := listLoop_pages st qp front lastPage p.cursor
        (fun q hq => hfront q (by simp [hq])) hlast
      simp only [List.cons_append, List.map_cons, listLoop, wrapCall,
        handleResponse_pageResponse, keysField_pageResponse, cursorField_pageResponse,
        status_pageResponse, sentCursors]
      simp only [List.map_append, List.map_cons, List.map_nil] at ih
      simp [hp, ih]

lemma list_default (st : AdobeState) (outcomes : List TransportOutcome) :
    AdobeState.list st {} outcomes = .ok (listLoop st [] outcomes 0) := by
  simp [AdobeState.list, jsTruthy, jsLtInt, jsGtInt, jsNumberOf, ajvStringPattern, ajvInteger]

/-- C3: the list iterator starts at cursor 0, issues one request per step
carrying the current cursor, yields one `{keys}` batch per server page in
request order, follows each page's cursor, and terminates when the cursor is
0; a 404 yields `{keys: []}` and terminates. -/
theorem claim_C3_pagination (st : AdobeState) (front : List ServerPage)
    (lastPage : ServerPage)
    (hfront : ∀ p ∈ front, p.cursor ≠ 0) (hlast : lastPage.cursor = 0) :
    AdobeState.list st {}
        ((front ++ [lastPage]).map fun p => .ok (pageResponse p.keys p.cursor)) =
      .ok ((sentCursors 0 (front ++ [lastPage])).map (listRequest st []),
           (front ++ [lastPage]).map ServerPage.keys, .finished) ∧
    (∀ (r : HttpResponse) (rest : List TransportOutcome), r.status = 404 →
      AdobeState.list st {} (.ok r :: rest) =
        .ok ([listRequest st [] 0], [[]], .finished)) := by
  constructor
  · rw [list_default, listLoop_pages st [] front lastPage 0 hfront hlast]
  · intro r rest h
    rw [list_default]
    simp [listLoop, wrapCall, handleResponse_404 h, h]

/-- Witness for C3 at a concrete two-page run (cursors 1 then 0) and at the
404 empty-container case. -/
theorem claim_C3_pagination_witness :
    AdobeState.list sampleState {}
        [.ok (pageResponse ["a", "b"] 1), .ok (pageResponse ["c"] 0)] =
      .ok ([listRequest sampleState [] 0, listRequest sampleState [] 1],
           [["a", "b"], ["c"]], .finished) ∧
    AdobeState.list sampleState {} [.ok response404] =
      .ok ([listRequest sampleState [] 0], [[]], .finished) := by
  have h := claim_C3_pagination sampleState [⟨["a", "b"], 1⟩] ⟨["c"], 0⟩
    (by decide) rfl
  exact ⟨by simpa [sentCursors] using h.1, h.2 response404 [] rfl⟩

/-! ## Casting helpers for integer-valued options -/

lemma jsToString_intCast (t : Int) : jsToString (.num (t : Rat)) = toString t := by
  simp [jsToString, jsNumToString, Rat.den_intCast, Rat.num_intCast]

lemma jsLtInt_intCast (t n : Int) : jsLtInt (.num (t : Rat)) n = decide (t < n) := by
  simp only [jsLtInt, jsNumberOf]
  exact decide_eq_decide.mpr (by exact_mod_cast Iff.rfl)

lemma jsGtInt_intCast (t n : Int) : jsGtInt (.num (t : Rat)) n = decide (n < t) := by
  simp only [jsGtInt, jsNumberOf]
  exact decide_eq_decide.mpr (by exact_mod_cast Iff.rfl)

lemma ajvInteger_intCast (path : String) (t : Int) :
    ajvInteger path (.num (t : Rat)) = [] := by
  simp [ajvInteger, Rat.den_intCast]

/-! ## Claim C4 -/

/-- C4 counterexample: `put(key, value, {ttl: 0})` does issue a request whose
URL carries a `ttl` query parameter (`?ttl=0`): the code checks
`ttl !== undefined`, not truthiness, so an explicit `0` is forwarded; the URL
differs from the parameterless one the claim asserts. -/
theorem claim_C4_counterexample :
    (AdobeState.put sampleState (.str "k") (.str "v") { ttl := .num 0 }
        (serveOnly response200)).2 =
      [{ method := "PUT", url := "https://host/containers/ns/data/k?ttl=0",
         body := some "v" }] ∧
    "https://host/containers/ns/data/k?ttl=0" ≠ createRequestUrl sampleState "/data/k" [] := by
  exact ⟨rfl, by decide⟩

/-- C4 amended: `put` sends a `ttl` query parameter exactly when the option is
defined: `put(key, value)` with no ttl issues a request without a `ttl`
parameter, while every defined valid integer ttl — including 0 — is sent as
`ttl={n}`. -/
theorem claim_C4_amended (st : AdobeState) (transport : Transport) :
    (AdobeState.put st (.str "k") (.str "v") {} transport).2 =
      [{ method := "PUT", url := createRequestUrl st "/data/k" [], body := some "v" }] ∧
    ∀ t : Int, 0 ≤ t → t ≤ MAX_TTL_SECONDS →
      (AdobeState.put st (.str "k") (.str "v") { ttl := .num (t : Rat) } transport).2 =
        [{ method := "PUT", url := createRequestUrl st "/data/k" [("ttl", toString t)],
           body := some "v" }] := by
  have hs : ("/data/" ++ jsToString (.str "k") : String) = "/data/k" := rfl
  have hv : jsToString (.str "v") = "v" := rfl
  constructor
  · simp [AdobeState.put, validateKeySchema_sample, ajvString, ajvInteger, hs, hv]
  · intro t h0 h1
    have hlt : jsLtInt (.num (t : Rat)) 0 = false := by
      rw [jsLtInt_intCast]; simpa using h0
    have hgt : jsGtInt (.num (t : Rat)) MAX_TTL_SECONDS = false := by
      rw [jsGtInt_intCast]; simpa using h1
    simp [AdobeState.put, validateKeySchema_sample, ajvString, ajvInteger_intCast,
      hlt, hgt, hs, hv, jsToString_intCast]

/-- Witness for the amended C4 at ttl 999. -/
theorem claim_C4_amended_witness :
    (AdobeState.put sampleState (.str "k") (.str "v")
        { ttl := .num ((999 : Int) : Rat) } (serveOnly response200)).2 =
      [{ method := "PUT",
         url := createRequestUrl sampleState "/data/k" [("ttl", toString (999 : Int))],
         body := some "v" }] :=
  (claim_C4_amended sampleState (serveOnly response200)).2 999 (by decide) (by decide)

/-! ## Claim C5 -/

lemma joinMessages_singleton (m : String) : joinMessages [m] = m := rfl

/-- The formatted AJV pattern error for an invalid string key. -/
def keyPatternMessage : String :=
  "/key must match pattern \"" ++ REGEX_PATTERN_STORE_KEY ++ "\""

/-- The formatted AJV type error for a non-string key. -/
def keyTypeMessage : String := "/key must be string"

/-- C5 counterexample: an `undefined` key — which is not a string of 1 to 1024
characters of the key class — passes validation (AJV treats a property whose
value is `undefined` as absent, and `key` is not `required` in the schema), so
`get(undefined)` issues one request to `/data/undefined` instead of rejecting
with `ERROR_BAD_ARGUMENT`. -/
theorem claim_C5_counterexample :
    AdobeState.get sampleState .undef (serveOnly response200) =
      (.ok (some { value := "some-value", expiresHeader := some "1707445350000" }),
       [{ method := "GET", url := "https://host/containers/ns/data/undefined",
          body := none }]) ∧
    (AdobeState.get sampleState .undef (serveOnly response200)).2.length = 1 :=
  ⟨rfl, rfl⟩

/-- C5 amended: for every supplied key other than `undefined` that is not a
1-1024-character string over `[A-Za-z0-9-_.]`, both `get` and `put` reject
with `ERROR_BAD_ARGUMENT` — naming the violated key pattern when the key is a
string, and the string-type requirement otherwise — and hand no request to the
executor; keys matching the pattern pass validation and are sent. -/
theorem claim_C5_amended (st : AdobeState) (key : JsValue) (transport : Transport)
    (hdef : key ≠ .undef)
    (hbad : ∀ s, key = .str s → matchesStoreKey s = false) :
    (AdobeState.get st key transport =
      (.error (.lib (.ERROR_BAD_ARGUMENT
        (match key with | .str _ => keyPatternMessage | _ => keyTypeMessage))), []) ∧
     AdobeState.put st key (.str "v") {} transport =
      (.error (.lib (.ERROR_BAD_ARGUMENT
        (match key with | .str _ => keyPatternMessage | _ => keyTypeMessage))), [])) ∧
    (∀ s, matchesStoreKey s = true →
      validateKeySchema (.str s) = [] ∧
      (AdobeState.get st (.str s) transport).2 =
        [{ method := "GET", url := createRequestUrl st ("/data/" ++ s) [],
           body := none }]) := by
  constructor
  · have hmsg : validateKeySchema key =
        [match key with | .str _ => keyPatternMessage | _ => keyTypeMessage] := by
      cases key with
      | undef => exact absurd rfl hdef
      | str s => simp [validateKeySchema, ajvStringPattern, hbad s rfl, keyPatternMessage]
      | null => rfl
      | boolean b => rfl
      | num q => rfl
    constructor
    · simp [AdobeState.get, hmsg, joinMessages_singleton]
    · simp [AdobeState.put, hmsg, joinMessages_singleton, ajvString, ajvInteger]
  · intro s h
    have hv : validateKeySchema (.str s) = [] := by
      simp [validateKeySchema, ajvStringPattern, h]
    exact ⟨hv, by simp [AdobeState.get, hv, jsToString]⟩

/-- Witness for the amended C5 at the invalid string key `bad/key` and the
valid key `k`. -/
theorem claim_C5_amended_witness :
    (AdobeState.get sampleState (.str "bad/key") (serveOnly response200) =
      (.error (.lib (.ERROR_BAD_ARGUMENT keyPatternMessage)), []) ∧
     AdobeState.put sampleState (.str "bad/key") (.str "v") {} (serveOnly response200) =
      (.error (.lib (.ERROR_BAD_ARGUMENT keyPatternMessage)), [])) ∧
    validateKeySchema (.str "k") = [] := by
  have h := claim_C5_amended sampleState (.str "bad/key") (serveOnly response200)
    (by decide) (by intro s hs; cases hs; decide)
  exact ⟨h.1, (h.2 "k" (by decide)).1⟩

/-! ## Claim C6 -/

lemma put_requests_validTtl (st : AdobeState) (transport : Transport) (t : Int)
    (h0 : 0 ≤ t) (h1 : t ≤ MAX_TTL_SECONDS) :
    (AdobeState.put st (.str "k") (.str "v") { ttl := .num (t : Rat) } transport).2 =
      [{ method := "PUT", url := createRequestUrl st "/data/k" [("ttl", toString t)],
         body := some "v" }] := by
  have hs : ("/data/" ++ jsToString (.str "k") : String) = "/data/k" := rfl
  have hv : jsToString (.str "v") = "v" := rfl
  have hlt : jsLtInt (.num (t : Rat)) 0 = false := by
    rw [jsLtInt_intCast]; simpa using h0
  have hgt : jsGtInt (.num (t : Rat)) MAX_TTL_SECONDS = false := by
    rw [jsGtInt_intCast]; simpa using h1
  simp [AdobeState.put, validateKeySchema_sample, ajvString, ajvInteger_intCast,
    hlt, hgt, hs, hv, jsToString_intCast]

/-- C6: with a valid key and string value, an integer ttl below 0 or above
`MAX_TTL_SECONDS = 31536000` makes `put` reject with `ERROR_BAD_ARGUMENT` and
the dedicated TTL-bound message before any request is issued, while every
integer ttl in `[0, 31536000]` passes validation and the request goes out. -/
theorem claim_C6_ttl_bounds (st : AdobeState) (transport : Transport) (t : Int) :
    ((t < 0 ∨ MAX_TTL_SECONDS < t) →
      AdobeState.put st (.str "k") (.str "v") { ttl := .num (t : Rat) } transport =
        (.error (.lib (.ERROR_BAD_ARGUMENT ttlBoundMessage)), [])) ∧
    (0 ≤ t → t ≤ MAX_TTL_SECONDS →
      (AdobeState.put st (.str "k") (.str "v") { ttl := .num (t : Rat) } transport).2 =
        [{ method := "PUT", url := createRequestUrl st "/data/k" [("ttl", toString t)],
           body := some "v" }]) := by
  constructor
  · intro h
    rcases h with h | h <;>
      simp [AdobeState.put, validateKeySchema_sample, ajvString, ajvInteger_intCast,
        jsLtInt_intCast, jsGtInt_intCast, h]
  · exact put_requests_validTtl st transport t

/-- Witness for C6 at ttl -1 (rejected) and ttl 0 (sent as `ttl=0`). -/
theorem claim_C6_ttl_bounds_witness :
    AdobeState.put sampleState (.str "k") (.str "v")
        { ttl := .num ((-1 : Int) : Rat) } (serveOnly response200) =
      (.error (.lib (.ERROR_BAD_ARGUMENT ttlBoundMessage)), []) ∧
    (AdobeState.put sampleState (.str "k") (.str "v")
        { ttl := .num ((0 : Int) : Rat) } (serveOnly response200)).2 =
      [{ method := "PUT",
         url := createRequestUrl sampleState "/data/k" [("ttl", toString (0 : Int))],
         body := some "v" }] :=
  ⟨(claim_C6_ttl_bounds sampleState (serveOnly response200) (-1)).1 (Or.inl (by decide)),
   (claim_C6_ttl_bounds sampleState (serveOnly response200) 0).2 (by decide) (by decide)⟩

/-! ## Claim C7 -/

/-- Modelled from the spec (refinement comparison only): the URL shape the
spec claims, `{endpoint}/{apiVersion}/containers/{namespace}[/data/{key}]
?{query}`, with an API-version path segment between the endpoint and the
containers segment. -/
def specRequestUrlWithApiVersion (st : AdobeState) (apiVersion : String)
    (containerURLPath : String) (queryObject : List (String × String)) : String :=
  st.endpoint ++ "/" ++ apiVersion ++ "/containers/" ++ st.nsName
    ++ containerURLPath ++ querySuffix queryObject

/-- C7 counterexample: the URL built for `get('k')` is
`{endpoint}/containers/{namespace}/data/k` — the containers segment follows
the endpoint directly, with no API-version segment (`v1beta1` is the version
the older revisions inserted), so the claimed shape does not hold. -/
theorem claim_C7_counterexample :
    createRequestUrl sampleState "/data/k" [] = "https://host/containers/ns/data/k" ∧
    createRequestUrl sampleState "/data/k" [] ≠
      specRequestUrlWithApiVersion sampleState "v1beta1" "/data/k" [] ∧
    (AdobeState.get sampleState (.str "k") (serveOnly response200)).2 =
      [{ method := "GET", url := "https://host/containers/ns/data/k", body := none }] := by
  refine ⟨rfl, ?_, rfl⟩
  decide

/-- C7 amended: every request URL has the shape
`{endpoint}/containers/{namespace}[/data[/{key}]]?{query}` — no API-version
path segment — as witnessed for all seven operations. -/
theorem claim_C7_amended (st : AdobeState) (transport : Transport)
    (path : String) (q : List (String × String)) :
    createRequestUrl st path q =
      st.endpoint ++ "/containers/" ++ st.nsName ++ path ++ querySuffix q ∧
    (AdobeState.get st (.str "k") transport).2 =
      [{ method := "GET", url := createRequestUrl st "/data/k" [], body := none }] ∧
    (AdobeState.put st (.str "k") (.str "v") {} transport).2 =
      [{ method := "PUT", url := createRequestUrl st "/data/k" [], body := some "v" }] ∧
    (AdobeState.delete st (.str "k") transport).2 =
      [{ method := "DELETE", url := createRequestUrl st "/data/k" [], body := none }] ∧
    (AdobeState.deleteAll st { matchPattern := .str "a*" } transport).2 =
      [{ method := "DELETE", url := createRequestUrl st "" [("matchData", "a*")],
         body := none }] ∧
    (AdobeState.any st transport).2 =
      [{ method := "HEAD", url := createRequestUrl st "" [], body := none }] ∧
    (AdobeState.stats st transport).2 =
      [{ method := "GET", url := createRequestUrl st "" [], body := none }] ∧
    AdobeState.list st {} [.ok (pageResponse [] 0)] =
      .ok ([{ method := "GET", url := createRequestUrl st "/data" [("cursor", "0")],
              body := none }], [[]], .finished) := by
  have hs : ("/data/" ++ jsToString (.str "k") : String) = "/data/k" := rfl
  have hv : validateDeleteAllSchema (.str "a*") = [] := rfl
  refine ⟨rfl, ?_, ?_, ?_, ?_, rfl, rfl, ?_⟩
  · simp [AdobeState.get, validateKeySchema_sample, hs]
  · simp [AdobeState.put, validateKeySchema_sample, ajvString, ajvInteger, hs,
      show jsToString (.str "v") = "v" from rfl]
  · simp [AdobeState.delete, validateKeySchema_sample, hs]
  · simp [AdobeState.deleteAll, hv, jsToString]
  · rw [list_default]
    have h := listLoop_pages st [] [] ⟨[], 0⟩ 0 (by simp) rfl
    simpa [sentCursors, listRequest] using h

/-! ## Claim C8 -/

/-- C8 counterexample: a transport-level rejection is not wrapped into
`ERROR_INTERNAL` — `_wrap`'s catch block calls `logAndThrow(e)`, which
rethrows the raw executor error unchanged, so `put` surfaces the raw
`some network error` (the repository's own test pins this: the rejection
matches the raw message). -/
theorem claim_C8_counterexample :
    (AdobeState.put sampleState (.str "k") (.str "v") {}
        (fun _ => .error "some network error")).1 =
      .error (.rawTransport "some network error") ∧
    OpError.isInternal (.rawTransport "some network error") = false :=
  ⟨rfl, rfl⟩

/-- C8 amended: when the executor rejects, every operation logs and rethrows
the raw transport failure unchanged (it is not wrapped into an
`ERROR_INTERNAL` of the taxonomy). -/
theorem claim_C8_amended (st : AdobeState) (msg : String) :
    (AdobeState.get st (.str "k") (fun _ => .error msg)).1 =
      .error (.rawTransport msg) ∧
    (AdobeState.put st (.str "k") (.str "v") {} (fun _ => .error msg)).1 =
      .error (.rawTransport msg) ∧
    (AdobeState.delete st (.str "k") (fun _ => .error msg)).1 =
      .error (.rawTransport msg) ∧
    (AdobeState.deleteAll st { matchPattern := .str "a*" } (fun _ => .error msg)).1 =
      .error (.rawTransport msg) ∧
    (AdobeState.any st (fun _ => .error msg)).1 = .error (.rawTransport msg) ∧
    (AdobeState.stats st (fun _ => .error msg)).1 = .error (.rawTransport msg) ∧
    AdobeState.list st {} [.error msg] =
      .ok ([listRequest st [] 0], [], .failed (.rawTransport msg)) := by
  have hw : wrapCall (.error msg) = .error (.rawTransport msg) := rfl
  have hv : validateDeleteAllSchema (.str "a*") = [] := rfl
  refine ⟨?_, ?_, ?_, ?_, ?_, ?_, ?_⟩
  · simp [AdobeState.get, hw, validateKeySchema_sample]
  · simp [AdobeState.put, hw, validateKeySchema_sample, ajvString, ajvInteger]
  · simp [AdobeState.delete, hw, validateKeySchema_sample]
  · simp [AdobeState.deleteAll, hw, hv]
  · simp [AdobeState.any, hw]
  · simp [AdobeState.stats, hw]
  · rw [list_default]
    simp [listLoop, hw]

/-! ## Claims C9 and C10 -/

/-- C9 counterexample: `list({countHint: 0})` does not throw
`ERROR_BAD_ARGUMENT` although 0 is outside `[100, 1000]`: the run succeeds and
issues a page request. -/
theorem claim_C9_counterexample :
    AdobeState.list sampleState { countHint := .num 0 } [.ok response404] =
      .ok ([listRequest sampleState [] 0], [[]], .finished) ∧
    isOkOutcome (AdobeState.list sampleState { countHint := .num 0 }
      [.ok response404]) = true :=
  ⟨rfl, rfl⟩

/-- C9 amended: every supplied nonzero integer countHint outside `[100, 1000]`
makes `list` throw `ERROR_BAD_ARGUMENT` naming the range, synchronously and
before any request; every integer countHint within the range is accepted and
forwarded as a `countHint` query parameter (a countHint of 0 is silently
dropped instead, see C10). -/
theorem claim_C9_amended (st : AdobeState) (outcomes : List TransportOutcome)
    (n : Int) :
    (n ≠ 0 → (n < MIN_LIST_COUNT_HINT ∨ MAX_LIST_COUNT_HINT < n) →
      AdobeState.list st { countHint := .num (n : Rat) } outcomes =
        .error (.lib (.ERROR_BAD_ARGUMENT countHintRangeMessage))) ∧
    (MIN_LIST_COUNT_HINT ≤ n → n ≤ MAX_LIST_COUNT_HINT → ∀ ks : List String,
      AdobeState.list st { countHint := .num (n : Rat) } [.ok (pageResponse ks 0)] =
        .ok ([listRequest st [("countHint", toString n)] 0], [ks], .finished)) := by
  constructor
  · intro hn hrange
    have htruthy : jsTruthy (.num (n : Rat)) = true := by
      simp [jsTruthy]
      exact_mod_cast hn
    rcases hrange with h | h <;>
      simp [AdobeState.list, htruthy, jsLtInt_intCast, jsGtInt_intCast, h]
  · intro h1 h2 ks
    have hn : n ≠ 0 := by
      intro h
      rw [h] at h1
      exact absurd h1 (by decide)
    have htruthy : jsTruthy (.num (n : Rat)) = true := by
      simp [jsTruthy]
      exact_mod_cast hn
    have hlt : jsLtInt (.num (n : Rat)) MIN_LIST_COUNT_HINT = false := by
      rw [jsLtInt_intCast]; simpa using h1
    have hgt : jsGtInt (.num (n : Rat)) MAX_LIST_COUNT_HINT = false := by
      rw [jsGtInt_intCast]; simpa using h2
    have hloop := listLoop_pages st [("countHint", toString n)] [] ⟨ks, 0⟩ 0 (by simp) rfl
    simp only [List.nil_append, List.map_cons, List.map_nil, sentCursors] at hloop
    simp [AdobeState.list, htruthy, hlt, hgt, hn, jsTruthy, ajvStringPattern,
      ajvInteger_intCast, jsToString_intCast, hloop]

/-- Witness for the amended C9 at countHint 50 (throws) and 500 (forwarded). -/
theorem claim_C9_amended_witness :
    AdobeState.list sampleState { countHint := .num ((50 : Int) : Rat) } [] =
      .error (.lib (.ERROR_BAD_ARGUMENT countHintRangeMessage)) ∧
    AdobeState.list sampleState { countHint := .num ((500 : Int) : Rat) }
        [.ok (pageResponse ["a"] 0)] =
      .ok ([listRequest sampleState [("countHint", toString (500 : Int))] 0],
           [["a"]], .finished) :=
  ⟨(claim_C9_amended sampleState [] 50).1 (by decide) (Or.inl (by decide)),
   (claim_C9_amended sampleState [] 500).2 (by decide) (by decide) ["a"]⟩

/-- C10: for `list({countHint: 0})` no `ERROR_BAD_ARGUMENT` is thrown even
though 0 is outside `[100, 1000]`: only truthy countHint values are copied
into the query object before the range check, so the option is dropped and the
whole run is the generator over an *empty* query object — every page request
goes out without a `countHint` parameter, identically to calling `list()` with
no options. -/
theorem claim_C10_countHint_zero_dropped (st : AdobeState)
    (outcomes : List TransportOutcome) :
    AdobeState.list st { countHint := .num 0 } outcomes =
      .ok (listLoop st [] outcomes 0) ∧
    AdobeState.list st { countHint := .num 0 } outcomes =
      AdobeState.list st {} outcomes := by
  have h : AdobeState.list st { countHint := .num 0 } outcomes =
      .ok (listLoop st [] outcomes 0) := rfl
  exact ⟨h, by rw [h, list_default]⟩

end AioLibState
